import Mathlib

/-!
Verification of the "determined" productivity tracker's core engines:
the point-accrual engine (predefined activity catalog, diminishing returns,
daily/weekly caps) and the streak state machine (`calculateStreakStatus`).

Shallow embedding conventions:
* Calendar dates (`YYYY-MM-DD` strings in the source) are represented by
  their ordinal day number as an `Int`; decrementing a JS `Date` by one day
  corresponds to subtracting 1.  Instants are milliseconds since the epoch.
* The source reads the wall clock (`getViennaDate()`, `isMorning()`,
  `isEvening()`) inside `calculateStreakStatus`; the embedding passes the
  clock explicitly as a `Clock` value (Vienna calendar day plus Vienna hour).
* The MongoDB day store (`Record<string, GardenDayData>`) is an association
  list from day numbers to records, looked up with `findRec`.
* JS `Math.round` is `⌊q + 1/2⌋` on rationals; JS numbers that are integers
  throughout are `Int`.
-/
/-! ### Constants and tier helpers (src gardenUtils, part_006) -/
def RECOVERY_TASK_IDS : List String := ["PS1", "F2", "R1", "R2"]

def PRODUCTIVE_DAY_THRESHOLD : Int := 51

def STREAK_PAUSE_DAYS : Nat := 2

def STREAK_RESET_DAYS : Nat := 3

def MIN_PRODUCTIVE_DAYS_PER_WEEK : Nat := 4

def MORNING_CUTOFF_HOUR : Nat := 12

def EVENING_HOUR : Nat := 18

/-- Emoji tier from a day's points (gardenUtils `getGardenEmoji`). -/
def getGardenEmoji (points : Int) : String :=
  if points ≤ 50 then "🌱"
  else if points ≤ 80 then "🌿"
  else if points ≤ 110 then "🌸"
  else if points ≤ 130 then "🌳"
  else "🌴"

/-- gardenUtils `hasStreakProtection`: seedling day with at least one recovery task. -/
def hasStreakProtection (emoji : String) (recoveryTaskCount : Nat) : Bool :=
  emoji == "🌱" && decide (1 ≤ recoveryTaskCount)

/-- gardenUtils `hasRecoveryBonus`: seedling day with three recovery tasks. -/
def hasRecoveryBonus (emoji : String) (recoveryTaskCount : Nat) : Bool :=
  emoji == "🌱" && decide (3 ≤ recoveryTaskCount)

/-- gardenUtils `isProductiveDay`. -/
def isProductiveDay (points : Int) : Bool :=
  decide (PRODUCTIVE_DAY_THRESHOLD ≤ points)

inductive StreakStatus
  | active
  | paused
  | reset
deriving DecidableEq, Repr

/-- The stored per-day record (gardenUtils `GardenDayData`); the streak fields
are optional exactly as in the TS interface. -/
structure GardenDayData where
  date : Int
  points : Int
  emoji : String
  recoveryTaskCount : Nat
  hasStreakProtection : Bool
  hasBonus : Bool
  streakCount : Option Int := none
  streakStatus : Option StreakStatus := none
  lowPointDaysInARow : Option Nat := none
  streakMessage : Option String := none
deriving DecidableEq, Repr

/-- The garden day store (`Record<string, GardenDayData>` keyed by date). -/
abbrev GardenStore := List (Int × GardenDayData)

/-- Store lookup, `gardenStore[date]`. -/
def findRec : GardenStore → Int → Option GardenDayData
  | [], _ => none
  | (d, r) :: rest, key => if d = key then some r else findRec rest key

/-- gardenUtils `getPreviousDates`: the `numberOfDays` dates preceding `fromDate`,
most recent first. -/
def getPreviousDates (fromDate : Int) (numberOfDays : Nat) : List Int :=
  (List.range numberOfDays).map (fun (i : Nat) => fromDate - ((i : Int) + 1))

/-- The counting loop inside `calculateStreakStatus`: walk the given previous
dates in order, adding one per stored low-and-unprotected day, stopping at the
first missing, productive, or protected day. -/
def countLowRun (store : GardenStore) : List Int → Nat
  | [] => 0
  | d :: rest =>
    match findRec store d with
    | none => 0
    | some prevData =>
      if isProductiveDay prevData.points || prevData.hasStreakProtection then 0
      else 1 + countLowRun store rest

/-- `lowPointDaysInARow` as computed by `calculateStreakStatus`. -/
def lowPointDaysInARowOf (currentData : GardenDayData) (store : GardenStore) : Nat :=
  if !(isProductiveDay currentData.points) && !currentData.hasStreakProtection then
    1 + countLowRun store (getPreviousDates currentData.date 7)
  else 0

/-- `last7Days = [currentDate, ...previousDates.slice(0, 6)]`. -/
def last7Days (currentData : GardenDayData) : List Int :=
  currentData.date :: (getPreviousDates currentData.date 7).take 6

/-- `daysWithData`: trailing-window days that are today or have a stored record. -/
def daysWithDataOf (currentData : GardenDayData) (store : GardenStore) : Nat :=
  ((last7Days currentData).filter
    (fun date => date == currentData.date || (findRec store date).isSome)).length

/-- `productiveDaysInWeek`: trailing-window days counting as productive-or-protected. -/
def productiveDaysInWeekOf (currentData : GardenDayData) (store : GardenStore) : Nat :=
  ((last7Days currentData).filter (fun date =>
    match (if date == currentData.date then some currentData else findRec store date) with
    | some data => isProductiveDay data.points || data.hasStreakProtection
    | none => false)).length

/-- `prevDayData?.streakCount || 0`. -/
def prevStreakCountOf (currentData : GardenDayData) (store : GardenStore) : Int :=
  ((findRec store (currentData.date - 1)).bind GardenDayData.streakCount).getD 0

/-- `prevDayData?.streakStatus || 'active'`. -/
def prevStreakStatusOf (currentData : GardenDayData) (store : GardenStore) : StreakStatus :=
  ((findRec store (currentData.date - 1)).bind GardenDayData.streakStatus).getD .active

structure StreakResult where
  streakCount : Int
  streakStatus : StreakStatus
  lowPointDaysInARow : Nat
  streakMessage : String
deriving DecidableEq, Repr

/-- The wall-clock inputs `calculateStreakStatus` reads through `getViennaDate()`,
`isMorning()` and `isEvening()`: the current Vienna calendar day and Vienna hour. -/
structure Clock where
  today : Int
  hour : Nat
deriving DecidableEq, Repr

/-- Body of `calculateStreakStatus` (part_006), with the three wall-clock reads
(`currentDate === getViennaDate()`, `isMorning()`, `isEvening()`) passed in as
booleans. -/
def calcCore (isCurrentDateToday isMorningTime isEveningTime : Bool)
    (currentData : GardenDayData) (gardenStore : GardenStore) : StreakResult :=
  let currentPoints := currentData.points
  let hasProtection := currentData.hasStreakProtection
  let lowPointDaysInARow := lowPointDaysInARowOf currentData gardenStore
  let daysWithData := daysWithDataOf currentData gardenStore
  let productiveDaysInWeek := productiveDaysInWeekOf currentData gardenStore
  let prevStreakCount := prevStreakCountOf currentData gardenStore
  let prevStreakStatus := prevStreakStatusOf currentData gardenStore
  if isCurrentDateToday ∧ isMorningTime ∧ currentPoints = 0 then
    let streakStatus := prevStreakStatus
    let streakCount := prevStreakCount
    let streakMessage :=
      if streakStatus = StreakStatus.active ∧ 0 < streakCount then
        "Good morning! Start the day by earning some points to maintain your streak!"
      else if streakStatus = StreakStatus.paused then
        "Good morning! Today\x27s your chance to earn 51+ points and save your streak!"
      else
        "Have a great day! Start with earning some points!"
    { streakCount := streakCount, streakStatus := streakStatus,
      lowPointDaysInARow := lowPointDaysInARow, streakMessage := streakMessage }
  else
    let base : Int × StreakStatus × String :=
      if isProductiveDay currentPoints || hasProtection then
        if prevStreakStatus = StreakStatus.paused then
          (prevStreakCount, StreakStatus.active, "Streak saved! Keep going!")
        else if prevStreakStatus = StreakStatus.active then
          let c := prevStreakCount + 1
          (c, StreakStatus.active,
            if 1 < c then s!"{c} day streak! Keep it up!" else "Streak started!")
        else
          (1, StreakStatus.active, "New streak started!")
      else if lowPointDaysInARow = 1 then
        (prevStreakCount, StreakStatus.active,
          if isCurrentDateToday then
            if isEveningTime then "Rest day! Try for a productive day tomorrow."
            else
              let pointsNeeded := PRODUCTIVE_DAY_THRESHOLD - currentPoints
              s!"You need {pointsNeeded} more points today to maintain your productivity streak!"
          else "Low-point day. One more and your streak will pause.")
      else if lowPointDaysInARow = 2 then
        (prevStreakCount, StreakStatus.paused,
          "Streak paused! Earn 51+ points in the next 24h to save it.")
      else if 3 ≤ lowPointDaysInARow then
        (0, StreakStatus.reset, "Streak reset! Three consecutive low-point days.")
      else
        (0, StreakStatus.active, "")
    let afterWeekly : Int × StreakStatus × String :=
      if productiveDaysInWeek < MIN_PRODUCTIVE_DAYS_PER_WEEK ∧ 7 ≤ daysWithData then
        (0, StreakStatus.reset, "Streak reset! Fewer than 4 productive days in the last week.")
      else base
    let finalMessage :=
      if daysWithData < 7 then
        if isProductiveDay currentPoints || hasProtection then
          if afterWeekly.1 = 1 then "Great start! You\x27ve begun your productivity journey!"
          else if afterWeekly.1 = 2 then "Two days in a row! You\x27re building momentum!"
          else if afterWeekly.1 = 3 then "Three-day streak! You\x27re establishing a pattern!"
          else afterWeekly.2.2
        else if lowPointDaysInARow = 1 then
          if isCurrentDateToday then
            if isMorningTime ∧ currentPoints = 0 then
              "Have a great day! Start with earning some points!"
            else if isEveningTime then "Rest day! Try for a productive day tomorrow."
            else
              let pointsNeeded := PRODUCTIVE_DAY_THRESHOLD - currentPoints
              s!"Just {pointsNeeded} more points needed today to have a productive day!"
          else "Rest day! Try for a productive day tomorrow."
        else afterWeekly.2.2
      else afterWeekly.2.2
    { streakCount := afterWeekly.1, streakStatus := afterWeekly.2.1,
      lowPointDaysInARow := lowPointDaysInARow, streakMessage := finalMessage }

/-- gardenUtils `calculateStreakStatus`, with the ambient wall clock explicit. -/
def calculateStreakStatus (currentData : GardenDayData) (gardenStore : GardenStore)
    (clock : Clock) : StreakResult :=
  calcCore (decide (currentData.date = clock.today))
    (decide (clock.hour < MORNING_CUTOFF_HOUR)) (decide (EVENING_HOUR ≤ clock.hour))
    currentData gardenStore

/-! ### Date keys (activities POST vs gardenUtils `getViennaDate`)

Both produce a `YYYY-MM-DD` string from the current instant; since the ISO
date string corresponds one-to-one with the number of whole days since the
epoch, we model a date key as that day number. -/
def MS_PER_DAY : Nat := 86400000

/-- Date key of `new Date().toISOString().split('T')[0]` (activities POST):
the UTC calendar day of the instant. -/
def utcDateKey (ms : Nat) : Nat := ms / MS_PER_DAY

/-- gardenUtils `getViennaDate`: add two hours to the instant, then take the
UTC calendar day of the shifted instant. -/
def viennaDateKey (ms : Nat) : Nat := (ms + 2 * 60 * 60 * 1000) / MS_PER_DAY

/-! ### Predefined activity catalog and diminishing returns (predefinedActivities.ts) -/
structure PredefinedActivity where
  id : String
  category : String
  name : String
  level : String
  points : Int
  isDiminishing : Bool
  dailyCap : Option Nat := none
  weeklyCap : Option Nat := none
  comment : String := ""
deriving DecidableEq, Repr

def PREDEFINED_ACTIVITIES : List PredefinedActivity := [
  { id := "F1", category := "Fitness 🏋️", name := "Hypertrophie-Workout ≥ 60 min (RIR ≤ 2)",
    level := "Hard", points := 30, isDiminishing := true, dailyCap := some 1,
    comment := "Maximal 1× pro Tag für gesunde Erholung" },
  { id := "F2", category := "Fitness 🏋️", name := "Mobility / Active Recovery ≥ 20 min",
    level := "Light", points := 12, isDiminishing := true,
    comment := "Zweiter Block = 0,75×" },
  { id := "F3", category := "Fitness 🏋️", name := "Ganzen Tag Makros exakt getrackt",
    level := "—", points := 10, isDiminishing := false, dailyCap := some 1,
    comment := "Kann nur 1×/Tag vorkommen" },
  { id := "M1", category := "Movement 🚴", name := "Leichter Walk / Gehen (15–30 min, ≥ 3 MET)",
    level := "Move-Light", points := 8, isDiminishing := true, dailyCap := some 2,
    comment := "Zweite Einheit 0,75× – NEAT-Booster" },
  { id := "M2", category := "Movement 🚴",
    name := "Moderates Cardio (Rad < 20 km/h, Jog 6–8 km/h, 30–60 min)",
    level := "Move-Mod", points := 12, isDiminishing := false, dailyCap := some 1,
    comment := "Zone-2-Ausdauer, 1×/Tag" },
  { id := "M3", category := "Movement 🚴",
    name := "Intensives Cardio (Rad > 20 km/h, zügiges Laufen, > 60 min)",
    level := "Move-Intense", points := 18, isDiminishing := false, dailyCap := some 1,
    comment := "Hoher Load, aber < Kraft-Workout" },
  { id := "S3", category := "Steps 👟", name := "Schrittziel erreicht (≥ 8 000 Schritte)",
    level := "Daily-Bin", points := 10, isDiminishing := false, dailyCap := some 1,
    comment := "Binäre Tagesaufgabe – WHO Guideline" },
  { id := "W1", category := "Work 💻", name := "6–8 h fokussierter Arbeitstag",
    level := "Base", points := 15, isDiminishing := false, dailyCap := some 1,
    comment := "Tages-Token" },
  { id := "W2", category := "Work 💻", name := "„Flow-Tag“ > 1 Key-Deliverable",
    level := "Elite", points := 25, isDiminishing := false, dailyCap := some 1,
    comment := "Max. 1×/Tag" },
  { id := "R1", category := "Reading 📚", name := "20 min Fach-/Selbstentwicklungslektüre",
    level := "Base", points := 10, isDiminishing := true,
    comment := "2. Session 0,75×" },
  { id := "R2", category := "Reading 📚", name := "60 min + Notizen",
    level := "Deep", points := 18, isDiminishing := true, dailyCap := some 2,
    comment := "Langform-Deep-Reading" },
  { id := "S1", category := "Self-Care 🌿", name := "Wohnung verschönern, Wellness, langer Walk",
    level := "—", points := 10, isDiminishing := true,
    comment := "Vermeidet Token-Grinding" },
  { id := "S2", category := "Self-Care 🌿", name := "„Growth Day“ (Bauernhof, Retreat etc.)",
    level := "XL", points := 20, isDiminishing := false, weeklyCap := some 1,
    comment := "Seltene Events" },
  { id := "SO1", category := "Social 🤝", name := "Treffen mit Freunden (Comfort-Zone)",
    level := "Base", points := 8, isDiminishing := true,
    comment := "2. Treffen 0,75×" },
  { id := "SO2", category := "Social 🤝", name := "Event > 2 h, neue Leute",
    level := "Bold", points := 15, isDiminishing := true, dailyCap := some 1,
    comment := "Hoher Aufwand → diminishing" },
  { id := "P1", category := "Planning 📅", name := "Event/Ticket gebucht & kalendriert",
    level := "—", points := 12, isDiminishing := false,
    comment := "Jeder Plan zählt voll" },
  { id := "P2", category := "Planning 📅", name := "Monats-Roadmap / OKRs überarbeitet",
    level := "—", points := 15, isDiminishing := false, weeklyCap := some 1,
    comment := "Max. 1×/Woche" },
  { id := "O1", category := "Organisation 🗂️", name := "Rechnungen, Supplement-Order etc.",
    level := "Quick", points := 5, isDiminishing := true,
    comment := "Mehrere Mini-Tasks dim." },
  { id := "O2", category := "Organisation 🗂️", name := "> 1 h Admin-Sprint",
    level := "Deep", points := 12, isDiminishing := false, dailyCap := some 1,
    comment := "Klar abgrenzbarer Block" },
  { id := "D1", category := "Digital-Detox 📵", name := "30 min Smartphone-frei",
    level := "Block", points := 3, isDiminishing := false, dailyCap := some 4,
    comment := "Cap = 4×/Tag" },
  { id := "D2", category := "Digital-Detox 📵", name := "2 h Deep-Work offline",
    level := "Block+", points := 10, isDiminishing := false, dailyCap := some 2,
    comment := "Cap = 2×/Tag" },
  { id := "PS1", category := "Psyche 🧠", name := "10 min Meditation / CBT-Journaling",
    level := "Base", points := 5, isDiminishing := true,
    comment := "2. Session 0,75×" },
  { id := "PS2", category := "Psyche 🧠", name := "< 10 min OCD-Loop (Selbst-Check)",
    level := "Clean", points := 8, isDiminishing := false, dailyCap := some 1,
    comment := "Tages-Status" }
]

def getActivityById (id : String) : Option PredefinedActivity :=
  PREDEFINED_ACTIVITIES.find? (fun activity => activity.id == id)

/-- JS `Math.round`: floor of the value plus one half. -/
def jsRound (q : ℚ) : Int := (q + 1/2).floor

/-- predefinedActivities `calculateDiminishedPoints`: the awarded points and
factor for the `count`-th (0-indexed) same-day occurrence. -/
def calculateDiminishedPoints (activity : PredefinedActivity) (count : Int) : Int × ℚ :=
  if !activity.isDiminishing || count == 0 then
    (activity.points, 1)
  else
    let factor : ℚ := if count = 1 then 3/4 else if 2 ≤ count then 1/2 else 1
    (jsRound ((activity.points : ℚ) * factor), factor)

/-- The factor table of the spec: `[1.0, 0.75, 0.5, 0.5, ...][N]` for
diminishing entries, constant `1.0` otherwise. -/
def specDimFactor (activity : PredefinedActivity) (n : Nat) : ℚ :=
  if activity.isDiminishing then
    match n with
    | 0 => 1
    | 1 => 3/4
    | _ => 1/2
  else 1

/-! ### The spec's backward walk for consecutive low-point days -/
/-- Walk backward from `date` while each day has a stored record that is
neither productive nor protected, counting those days; stop at the first
productive or protected day or the first day with no record, and look at
most `fuel` days back. -/
def specLowWalk (store : GardenStore) : Int → Nat → Nat
  | _, 0 => 0
  | date, fuel + 1 =>
    match findRec store date with
    | none => 0
    | some r =>
      if isProductiveDay r.points || r.hasStreakProtection then 0
      else 1 + specLowWalk store (date - 1) fuel

/-- The consecutive-low-point-day count as the spec words it: `0` on a
productive-or-protected day, otherwise `1` plus the backward walk over at
most the 7 prior days. -/
def specLowPointDays (currentData : GardenDayData) (store : GardenStore) : Nat :=
  if isProductiveDay currentData.points || currentData.hasStreakProtection then 0
  else 1 + specLowWalk store (currentData.date - 1) 7

/-! ### The spec's base streak transition (§4.2 step 2) -/
/-- The reference base transition of the spec, on the (status, count) pair:
productive-or-protected days resume a paused streak at the prior count,
increment an active one, or restart a reset one at 1; otherwise one low day
holds, two pause, three or more reset.  (The `lowDays = 0` fallback is
unreachable: a non-productive unprotected day always has `lowDays ≥ 1`.) -/
def specBaseTransition (productiveOrProtected : Bool) (prevStatus : StreakStatus)
    (prevCount : Int) (lowDays : Nat) : StreakStatus × Int :=
  if productiveOrProtected then
    match prevStatus with
    | .paused => (.active, prevCount)
    | .active => (.active, prevCount + 1)
    | .reset => (.active, 1)
  else if lowDays = 1 then (.active, prevCount)
  else if lowDays = 2 then (.paused, prevCount)
  else if 3 ≤ lowDays then (.reset, 0)
  else (.active, prevCount)

/-- A plain day record with the given date and points, no recovery tasks. -/
def sampleDay (date points : Int) : GardenDayData :=
  { date := date, points := points, emoji := getGardenEmoji points,
    recoveryTaskCount := 0, hasStreakProtection := false, hasBonus := false }

/-! ### The day-by-day recurrence (garden sync route) and its reachable records -/
structure UserActivity where
  id : String
  activityId : String
  name : String
  category : String
  points : Int
  originalPoints : Int
  timestamp : Int
  diminishingFactor : Option ℚ := none
deriving DecidableEq, Repr

/-- Garden sync: `activities.reduce((sum, a) => sum + (a.points || 0), 0)`. -/
def totalPointsOf (activities : List UserActivity) : Int :=
  activities.foldl (fun sum a => sum + a.points) 0

/-- Garden sync: count of activities whose catalog id is in the recovery set. -/
def recoveryCountOf (activities : List UserActivity) : Nat :=
  (activities.filter (fun a => RECOVERY_TASK_IDS.contains a.activityId)).length

/-- One day fed to the recurrence: its date, its logged activities, and the
wall clock at which the sync for that day ran. -/
structure DayInput where
  date : Int
  activities : List UserActivity
  clock : Clock
deriving DecidableEq, Repr

/-- The current-day record the garden sync route builds from the day's
activities before calling `calculateStreakStatus`. -/
def mkCurrentData (inp : DayInput) : GardenDayData :=
  let totalPoints := totalPointsOf inp.activities
  let recoveryTaskCount := recoveryCountOf inp.activities
  let dayEmoji := getGardenEmoji totalPoints
  { date := inp.date, points := totalPoints, emoji := dayEmoji,
    recoveryTaskCount := recoveryTaskCount,
    hasStreakProtection := hasStreakProtection dayEmoji recoveryTaskCount,
    hasBonus := hasRecoveryBonus dayEmoji recoveryTaskCount }

/-- One step of the recurrence: compute the day's streak fields from the
history store and upsert the resulting record (prepending; `findRec` returns
the newest entry for a date). -/
def syncDay (store : GardenStore) (inp : DayInput) : GardenStore :=
  let currentData := mkCurrentData inp
  let result := calculateStreakStatus currentData store inp.clock
  let gardenData : GardenDayData :=
    { currentData with
      streakCount := some result.streakCount,
      streakStatus := some result.streakStatus,
      lowPointDaysInARow := some result.lowPointDaysInARow,
      streakMessage := some result.streakMessage }
  (inp.date, gardenData) :: store

/-- Run the streak state machine from a fresh (empty-history) start. -/
def runMachine (inputs : List DayInput) : GardenStore :=
  inputs.foldl syncDay []

/-- The record invariant of spec §3: nonnegative count, and a reset status
only with count 0 (reading the optional fields with their engine defaults). -/
def RecInv (r : GardenDayData) : Prop :=
  0 ≤ r.streakCount.getD 0 ∧ (r.streakStatus.getD .active = .reset → r.streakCount.getD 0 = 0)

def StoreInv (store : GardenStore) : Prop := ∀ p ∈ store, RecInv p.2

/-- A 5-point (low, unprotected) custom logged activity. -/
def demoLowActivity (ts : Int) : UserActivity :=
  { id := toString ts, activityId := "custom", name := "demo", category := "Custom",
    points := 5, originalPoints := 5, timestamp := ts }

/-- Two consecutive 5-point days from a fresh start, both synced historically. -/
def demoInputs : List DayInput :=
  [ { date := 10, activities := [demoLowActivity 1], clock := { today := 99, hour := 15 } },
    { date := 11, activities := [demoLowActivity 2], clock := { today := 99, hour := 15 } } ]

/-- The record the machine stores for a single historical 5-point day 10. -/
def demoDay10Record : GardenDayData where
  date := 10
  points := 5
  emoji := "🌱"
  recoveryTaskCount := 0
  hasStreakProtection := false
  hasBonus := false
  streakCount := some 0
  streakStatus := some StreakStatus.active
  lowPointDaysInARow := some 1
  streakMessage := some "Rest day! Try for a productive day tomorrow."

/-! ### The activities API: recording, caps, deletion (part_018 / part_019) -/
deriving instance DecidableEq for Except

/-- The per-date activities document: the logged activities plus the per-id
occurrence counters (`activityCounts`). -/
structure DayData where
  activities : List UserActivity
  activityCounts : List (String × Int)
deriving DecidableEq, Repr

def countOf (counts : List (String × Int)) (id : String) : Int :=
  (counts.lookup id).getD 0

def incCount (counts : List (String × Int)) (id : String) (delta : Int) :
    List (String × Int) :=
  match counts with
  | [] => [(id, delta)]
  | (k, v) :: rest =>
    if k == id then (k, v + delta) :: rest else (k, v) :: incCount rest id delta

inductive RecordError
  | unknownActivity
  | dailyCapReached (reason : String)
  | weeklyCapReached (reason : String)
deriving DecidableEq, Repr

def dailyCapReason (cap : Nat) : String :=
  "You\x27ve reached the daily limit of " ++ toString cap ++ "× for this activity."

def weeklyCapReason (cap : Nat) : String :=
  "You\x27ve reached the weekly limit of " ++ toString cap ++ "× for this activity."

def weeklyCapCheck (pred : PredefinedActivity) (weekly : List (String × Int)) :
    Option RecordError :=
  match pred.weeklyCap with
  | some cap =>
    if (cap : Int) ≤ countOf weekly pred.id then
      some (.weeklyCapReached (weeklyCapReason cap))
    else none
  | none => none

def hasReachedCap (pred : PredefinedActivity) (dateData : DayData)
    (weekly : List (String × Int)) : Option RecordError :=
  match pred.dailyCap with
  | some cap =>
    if (cap : Int) ≤ countOf dateData.activityCounts pred.id then
      some (.dailyCapReached (dailyCapReason cap))
    else weeklyCapCheck pred weekly
  | none => weeklyCapCheck pred weekly

def recordActivity (activityId : String) (nowMs : Int) (dateData : DayData)
    (weekly : List (String × Int)) :
    Except RecordError (UserActivity × DayData × List (String × Int)) :=
  match getActivityById activityId with
  | none => .error .unknownActivity
  | some predefinedActivity =>
    match hasReachedCap predefinedActivity dateData weekly with
    | some e => .error e
    | none =>
      let currentCount := countOf dateData.activityCounts activityId
      let pf := calculateDiminishedPoints predefinedActivity currentCount
      let newActivity : UserActivity :=
        { id := toString nowMs, activityId := predefinedActivity.id,
          name := predefinedActivity.name, category := predefinedActivity.category,
          points := pf.1, originalPoints := predefinedActivity.points,
          timestamp := nowMs, diminishingFactor := some pf.2 }
      let newDateData : DayData :=
        { activities := dateData.activities ++ [newActivity],
          activityCounts := incCount dateData.activityCounts activityId 1 }
      let newWeekly :=
        if predefinedActivity.weeklyCap.isSome then incCount weekly activityId 1 else weekly
      .ok (newActivity, newDateData, newWeekly)

inductive DeleteError
  | noActivities
  | notFound
deriving DecidableEq, Repr

def deleteActivityNoRecalc (id : String) (dateData : DayData) :
    Except DeleteError DayData :=
  if dateData.activities.isEmpty then .error .noActivities
  else
    match dateData.activities.find? (fun a => a.id == id) with
    | none => .error .notFound
    | some activityToDelete =>
      let updatedActivities := dateData.activities.filter (fun a => !(a.id == id))
      let newCounts :=
        if activityToDelete.activityId == "custom" then dateData.activityCounts
        else incCount dateData.activityCounts activityToDelete.activityId (-1)
      .ok { activities := updatedActivities, activityCounts := newCounts }

def insertByTimestamp (a : UserActivity) : List UserActivity → List UserActivity
  | [] => [a]
  | b :: rest =>
    if a.timestamp < b.timestamp then a :: b :: rest else b :: insertByTimestamp a rest

def sortByTimestamp : List UserActivity → List UserActivity
  | [] => []
  | a :: rest => insertByTimestamp a (sortByTimestamp rest)

def assignDiminishing (pred : PredefinedActivity) :
    List UserActivity → Int → List UserActivity
  | [], _ => []
  | a :: rest, count =>
    let pf := calculateDiminishedPoints pred count
    { a with points := pf.1, diminishingFactor := some pf.2 }
      :: assignDiminishing pred rest (count + 1)

def deleteActivityRecalc (id : String) (dateData : DayData) :
    Except DeleteError DayData :=
  match dateData.activities.find? (fun a => a.id == id) with
  | none => .error .notFound
  | some activityToDelete =>
    if activityToDelete.activityId == "custom" then
      .ok { activities := dateData.activities.filter (fun a => !(a.id == id)),
            activityCounts := dateData.activityCounts }
    else
      let counts1 := incCount dateData.activityCounts activityToDelete.activityId (-1)
      match getActivityById activityToDelete.activityId with
      | none =>
        .ok { activities := dateData.activities.filter (fun a => !(a.id == id)),
              activityCounts := counts1 }
      | some predefinedActivity =>
        let activitiesOfSameType :=
          sortByTimestamp (dateData.activities.filter
            (fun a => a.activityId == activityToDelete.activityId && !(a.id == id)))
        let recalced := assignDiminishing predefinedActivity activitiesOfSameType 0
        let updated := dateData.activities.map (fun a =>
          match recalced.find? (fun r => r.id == a.id) with
          | some r => r
          | none => a)
        .ok { activities := updated.filter (fun a => !(a.id == id)),
              activityCounts := counts1 }

def f2Activity (id : String) (points : Int) (ts : Int) (factor : ℚ) : UserActivity :=
  { id := id, activityId := "F2", name := "Mobility / Active Recovery ≥ 20 min",
    category := "Fitness 🏋️", points := points, originalPoints := 12,
    timestamp := ts, diminishingFactor := some factor }

def threeF2Day : DayData :=
  { activities := [f2Activity "a" 12 1 1, f2Activity "b" 9 2 (3/4), f2Activity "c" 6 3 (1/2)],
    activityCounts := [("F2", 3)] }

def f2Entry : PredefinedActivity :=
  { id := "F2", category := "Fitness 🏋️", name := "Mobility / Active Recovery ≥ 20 min",
    level := "Light", points := 12, isDiminishing := true,
    comment := "Zweiter Block = 0,75×" }

def f1Logged : UserActivity :=
  { id := "0", activityId := "F1", name := "Hypertrophie-Workout ≥ 60 min (RIR ≤ 2)",
    category := "Fitness 🏋️", points := 30, originalPoints := 30,
    timestamp := 0, diminishingFactor := some 1 }

/-! ### Theorems -/

theorem jsRound_eq_int_floor (q : ℚ) : jsRound q = ⌊q + 1/2⌋ := by
  unfold jsRound
  rw [Rat.floor_def', Rat.floor_def]

theorem jsRound_intCast (p : Int) : jsRound (p : ℚ) = p := by
  rw [jsRound_eq_int_floor]
  rw [Int.floor_eq_iff]
  constructor
  · norm_num
  · norm_num

theorem getPreviousDates_succ (d : Int) (n : Nat) :
    getPreviousDates d (n + 1) = (d - 1) :: getPreviousDates (d - 1) n := by
  unfold getPreviousDates
  rw [List.range_succ_eq_map]
  simp only [List.map_cons, List.map_map, Nat.cast_zero, zero_add]
  congr 1
  refine List.map_congr_left ?_
  intro i _
  simp only [Function.comp_apply, Nat.succ_eq_add_one]
  push_cast
  ring

theorem countLowRun_eq_specLowWalk (store : GardenStore) :
    ∀ (n : Nat) (d : Int),
      countLowRun store (getPreviousDates d n) = specLowWalk store (d - 1) n := by
  intro n
  induction n with
  | zero => intro d; rfl
  | succ k ih =>
    intro d
    rw [getPreviousDates_succ]
    unfold countLowRun specLowWalk
    cases h : findRec store (d - 1) with
    | none => rfl
    | some r =>
      by_cases hp : (isProductiveDay r.points || r.hasStreakProtection) = true
      · simp [hp]
      · simp [hp, ih]

theorem lowPointDaysInARowOf_of_low (currentData : GardenDayData) (store : GardenStore)
    (h : (isProductiveDay currentData.points || currentData.hasStreakProtection) = false) :
    lowPointDaysInARowOf currentData store
      = 1 + countLowRun store (getPreviousDates currentData.date 7) := by
  unfold lowPointDaysInARowOf
  simp only [Bool.or_eq_false_iff] at h
  simp [h.1, h.2]

/-- Outside the morning early return, `calculateStreakStatus` yields the
weekly-quota override when it fires and the base transition otherwise. -/
theorem calcCore_status_count (tdy m e : Bool) (currentData : GardenDayData)
    (store : GardenStore)
    (h : ¬(tdy = true ∧ m = true ∧ currentData.points = 0)) :
    ((calcCore tdy m e currentData store).streakStatus,
     (calcCore tdy m e currentData store).streakCount)
      = if productiveDaysInWeekOf currentData store < MIN_PRODUCTIVE_DAYS_PER_WEEK
          ∧ 7 ≤ daysWithDataOf currentData store
        then (StreakStatus.reset, 0)
        else specBaseTransition
          (isProductiveDay currentData.points || currentData.hasStreakProtection)
          (prevStreakStatusOf currentData store) (prevStreakCountOf currentData store)
          (lowPointDaysInARowOf currentData store) := by
  unfold calcCore
  dsimp only
  rw [if_neg h]
  dsimp only
  split
  · rfl
  · unfold specBaseTransition
    by_cases hp : (isProductiveDay currentData.points || currentData.hasStreakProtection) = true
    · rw [if_pos hp, if_pos hp]
      cases hps : prevStreakStatusOf currentData store <;> simp [hps]
    · have hp' : (isProductiveDay currentData.points || currentData.hasStreakProtection)
          = false := by simpa using hp
      rw [if_neg hp,
        if_neg (by simp [hp'] :
          ¬ (isProductiveDay currentData.points || currentData.hasStreakProtection) = true)]
      have hlow := lowPointDaysInARowOf_of_low currentData store hp'
      by_cases h1 : lowPointDaysInARowOf currentData store = 1
      · simp [h1]
      · by_cases h2 : lowPointDaysInARowOf currentData store = 2
        · simp [h1, h2]
        · by_cases h3 : 3 ≤ lowPointDaysInARowOf currentData store
          · simp [h1, h2, h3]
          · omega

/-! ### Claim theorems -/
/-- C1: outside the time-of-day morning carry-forward, `calculateStreakStatus`
forces `streakStatus = reset` with `streakCount = 0`, overriding the base
transition, exactly when fewer than 4 of the trailing 7 window days count as
productive-or-protected and the window carries at least 7 days of data
(today plus all six prior days recorded); with less data the base transition
stands, so the override never fires during the first week. -/
theorem weekly_quota_override_iff (currentData : GardenDayData) (store : GardenStore)
    (clock : Clock)
    (h : ¬(currentData.date = clock.today ∧ clock.hour < MORNING_CUTOFF_HOUR
            ∧ currentData.points = 0)) :
    ((calculateStreakStatus currentData store clock).streakStatus,
     (calculateStreakStatus currentData store clock).streakCount)
      = if productiveDaysInWeekOf currentData store < MIN_PRODUCTIVE_DAYS_PER_WEEK
          ∧ 7 ≤ daysWithDataOf currentData store
        then (StreakStatus.reset, 0)
        else specBaseTransition
          (isProductiveDay currentData.points || currentData.hasStreakProtection)
          (prevStreakStatusOf currentData store) (prevStreakCountOf currentData store)
          (lowPointDaysInARowOf currentData store) := by
  unfold calculateStreakStatus
  apply calcCore_status_count
  simpa using h

theorem weekly_quota_override_iff_witness :
    (¬((sampleDay 10 60).date = (Clock.mk 11 15).today
        ∧ (Clock.mk 11 15).hour < MORNING_CUTOFF_HOUR ∧ (sampleDay 10 60).points = 0))
    ∧ ((calculateStreakStatus (sampleDay 10 60) [] (Clock.mk 11 15)).streakStatus,
       (calculateStreakStatus (sampleDay 10 60) [] (Clock.mk 11 15)).streakCount)
        = if productiveDaysInWeekOf (sampleDay 10 60) [] < MIN_PRODUCTIVE_DAYS_PER_WEEK
            ∧ 7 ≤ daysWithDataOf (sampleDay 10 60) []
          then (StreakStatus.reset, 0)
          else specBaseTransition
            (isProductiveDay (sampleDay 10 60).points || (sampleDay 10 60).hasStreakProtection)
            (prevStreakStatusOf (sampleDay 10 60) []) (prevStreakCountOf (sampleDay 10 60) [])
            (lowPointDaysInARowOf (sampleDay 10 60) []) :=
  ⟨by decide, weekly_quota_override_iff (sampleDay 10 60) [] (Clock.mk 11 15) (by decide)⟩

/-- C7: when neither the morning carry-forward nor the weekly-quota override
applies, the (status, count) transition of `calculateStreakStatus` equals the
reference base transition: productive-or-protected days resume `paused` at the
prior count, increment `active`, restart `reset` at 1; otherwise one low day
holds `active` at the prior count, two pause at the prior count, three or more
reset to 0. -/
theorem base_transition_matches_reference (currentData : GardenDayData)
    (store : GardenStore) (clock : Clock)
    (h : ¬(currentData.date = clock.today ∧ clock.hour < MORNING_CUTOFF_HOUR
            ∧ currentData.points = 0))
    (hq : ¬(productiveDaysInWeekOf currentData store < MIN_PRODUCTIVE_DAYS_PER_WEEK
            ∧ 7 ≤ daysWithDataOf currentData store)) :
    ((calculateStreakStatus currentData store clock).streakStatus,
     (calculateStreakStatus currentData store clock).streakCount)
      = specBaseTransition
          (isProductiveDay currentData.points || currentData.hasStreakProtection)
          (prevStreakStatusOf currentData store) (prevStreakCountOf currentData store)
          (lowPointDaysInARowOf currentData store) := by
  unfold calculateStreakStatus
  rw [calcCore_status_count _ _ _ _ _ (by simpa using h), if_neg hq]

theorem base_transition_matches_reference_witness :
    (¬((sampleDay 10 60).date = (Clock.mk 11 15).today
        ∧ (Clock.mk 11 15).hour < MORNING_CUTOFF_HOUR ∧ (sampleDay 10 60).points = 0))
    ∧ ((calculateStreakStatus (sampleDay 10 60) [] (Clock.mk 11 15)).streakStatus,
       (calculateStreakStatus (sampleDay 10 60) [] (Clock.mk 11 15)).streakCount)
        = specBaseTransition
            (isProductiveDay (sampleDay 10 60).points || (sampleDay 10 60).hasStreakProtection)
            (prevStreakStatusOf (sampleDay 10 60) []) (prevStreakCountOf (sampleDay 10 60) [])
            (lowPointDaysInARowOf (sampleDay 10 60) []) :=
  ⟨by decide, base_transition_matches_reference (sampleDay 10 60) [] (Clock.mk 11 15)
    (by decide) (by decide)⟩

/-- C5: `lowPointDaysInARow` is 0 on a productive-or-protected day; otherwise
it is 1 plus the number of consecutive immediately preceding days (at most 7
back) whose stored records are neither productive nor protected, stopping at
the first productive or protected day or the first missing record — a missing
record truncates the walk without counting as a low day or resetting it.
This holds for every wall clock, including the morning early return. -/
theorem low_point_days_in_a_row_spec (currentData : GardenDayData) (store : GardenStore)
    (clock : Clock) :
    (calculateStreakStatus currentData store clock).lowPointDaysInARow
      = specLowPointDays currentData store := by
  have hw := countLowRun_eq_specLowWalk store 7 currentData.date
  have hlow : lowPointDaysInARowOf currentData store = specLowPointDays currentData store := by
    unfold lowPointDaysInARowOf specLowPointDays
    by_cases hp : (isProductiveDay currentData.points || currentData.hasStreakProtection) = true
    · simp only [Bool.or_eq_true] at hp
      rcases hp with h | h <;> simp [h]
    · simp only [Bool.or_eq_true, not_or, Bool.not_eq_true] at hp
      simp [hp.1, hp.2, hw]
  unfold calculateStreakStatus calcCore
  dsimp only
  rw [apply_ite StreakResult.lowPointDaysInARow]
  dsimp only
  rw [ite_self]
  exact hlow

/-- C6: for every catalog entry and 0-indexed daily occurrence index `N`,
`calculateDiminishedPoints` awards `round(basePoints × factor)` with factor
1.0 for N = 0, 0.75 for N = 1, 0.5 for N ≥ 2 on diminishing entries, and
factor 1.0 with the full base points on non-diminishing entries. -/
theorem diminished_points_match_factor_table (activity : PredefinedActivity) (n : Nat) :
    calculateDiminishedPoints activity (n : Int)
      = (jsRound ((activity.points : ℚ) * specDimFactor activity n),
         specDimFactor activity n)
    ∧ (activity.isDiminishing = false →
        (calculateDiminishedPoints activity (n : Int)).1 = activity.points) := by
  constructor
  · by_cases hd : activity.isDiminishing
    · match n with
      | 0 => simp [calculateDiminishedPoints, specDimFactor, hd, jsRound_intCast]
      | 1 => simp [calculateDiminishedPoints, specDimFactor, hd]
      | (k + 2) =>
        have h0 : ¬ ((k : Int) + 2 = 0) := by omega
        have h1 : ¬ ((k : Int) + 2 = 1) := by omega
        have h2 : (2 : Int) ≤ (k : Int) + 2 := by omega
        simp [calculateDiminishedPoints, specDimFactor, hd, h0, h1, h2]
    · simp only [Bool.not_eq_true] at hd
      simp [calculateDiminishedPoints, specDimFactor, hd, jsRound_intCast]
  · intro hnd
    simp [calculateDiminishedPoints, hnd]

theorem diminished_points_match_factor_table_witness :
    (calculateDiminishedPoints
      { id := "F3", category := "Fitness 🏋️", name := "Ganzen Tag Makros exakt getrackt",
        level := "—", points := 10, isDiminishing := false, dailyCap := some 1,
        comment := "Kann nur 1×/Tag vorkommen" } ((2 : Nat) : Int)).1 = 10 :=
  (diminished_points_match_factor_table
    { id := "F3", category := "Fitness 🏋️", name := "Ganzen Tag Makros exakt getrackt",
      level := "—", points := 10, isDiminishing := false, dailyCap := some 1,
      comment := "Kann nur 1×/Tag vorkommen" } 2).2 rfl

/-- C9: evaluation at the failing instant — the activities POST keys the new
activity's day by the plain UTC date of the instant, while the streak engine's
`getViennaDate` shifts the instant by two hours first; at 23:00 UTC of the
epoch day the two date keys differ by one day, so the code does not apply one
fixed UTC offset uniformly as the claim requires. -/
theorem date_keys_disagree_at_2300_utc :
    utcDateKey 82800000 = 0 ∧ viennaDateKey 82800000 = 1
    ∧ ¬ utcDateKey 82800000 = viennaDateKey 82800000 := by decide

/-- C10: every day earning the recovery bonus (seedling emoji with at least
three recovery tasks) is also streak-protected (seedling emoji with at least
one recovery task). -/
theorem recovery_bonus_implies_protection (emoji : String) (recoveryTaskCount : Nat)
    (h : hasRecoveryBonus emoji recoveryTaskCount = true) :
    hasStreakProtection emoji recoveryTaskCount = true := by
  unfold hasRecoveryBonus at h
  unfold hasStreakProtection
  simp only [Bool.and_eq_true, decide_eq_true_eq] at h ⊢
  exact ⟨h.1, by omega⟩

theorem recovery_bonus_implies_protection_witness :
    hasRecoveryBonus "🌱" 3 = true ∧ hasStreakProtection "🌱" 3 = true :=
  ⟨by decide, recovery_bonus_implies_protection "🌱" 3 (by decide)⟩

/-- With the current date not evaluated as "today", the body of
`calculateStreakStatus` ignores the morning and evening flags entirely. -/
theorem calcCore_not_today (m e m' e' : Bool) (currentData : GardenDayData)
    (store : GardenStore) :
    calcCore false m e currentData store = calcCore false m' e' currentData store := by
  unfold calcCore
  simp only [Bool.false_eq_true, false_and, if_false]

/-- C4: counterexample — with identical current-day data (date 10, 0 points,
no protection) and an identical (empty) history store, evaluating
`calculateStreakStatus` at 9:00 and at 13:00 Vienna time on that same day
returns different results, so the computation is not determined by the
explicit inputs alone. -/
theorem streak_not_clock_independent :
    ¬ calculateStreakStatus (sampleDay 10 0) [] (Clock.mk 10 9)
        = calculateStreakStatus (sampleDay 10 0) [] (Clock.mk 10 13) := by decide

/-- C4 (amended): `calculateStreakStatus` is deterministic in its explicit
inputs together with the wall clock; in particular, whenever the record's date
is not the current Vienna date at evaluation time (historical re-derivation),
the result is independent of the evaluation instant. -/
theorem streak_deterministic_for_past_dates (currentData : GardenDayData)
    (store : GardenStore) (c1 c2 : Clock)
    (h1 : ¬ currentData.date = c1.today) (h2 : ¬ currentData.date = c2.today) :
    calculateStreakStatus currentData store c1 = calculateStreakStatus currentData store c2 := by
  unfold calculateStreakStatus
  rw [show (decide (currentData.date = c1.today)) = false by simpa using h1,
      show (decide (currentData.date = c2.today)) = false by simpa using h2]
  exact calcCore_not_today _ _ _ _ _ _

theorem findRec_mem {store : GardenStore} {k : Int} {r : GardenDayData}
    (h : findRec store k = some r) : (k, r) ∈ store := by
  induction store with
  | nil => simp [findRec] at h
  | cons p rest ih =>
    obtain ⟨d, x⟩ := p
    unfold findRec at h
    by_cases hd : d = k
    · rw [if_pos hd] at h
      injection h with h
      subst hd
      subst h
      exact List.mem_cons_self _ _
    · rw [if_neg hd] at h
      exact List.mem_cons_of_mem _ (ih h)

theorem prev_facts (currentData : GardenDayData) (store : GardenStore) (hs : StoreInv store) :
    0 ≤ prevStreakCountOf currentData store ∧
      (prevStreakStatusOf currentData store = .reset →
        prevStreakCountOf currentData store = 0) := by
  unfold prevStreakCountOf prevStreakStatusOf
  cases h : findRec store (currentData.date - 1) with
  | none => simp
  | some r =>
    have hr : RecInv r := hs _ (findRec_mem h)
    simpa [Option.bind] using hr

/-- Any output of `calculateStreakStatus` over a store satisfying the record
invariant again satisfies it: nonnegative count, reset only with count 0. -/
theorem calc_result_inv (currentData : GardenDayData) (store : GardenStore) (clock : Clock)
    (hs : StoreInv store) :
    0 ≤ (calculateStreakStatus currentData store clock).streakCount ∧
      ((calculateStreakStatus currentData store clock).streakStatus = .reset →
        (calculateStreakStatus currentData store clock).streakCount = 0) := by
  have hprev := prev_facts currentData store hs
  by_cases hm : (decide (currentData.date = clock.today) = true
      ∧ decide (clock.hour < MORNING_CUTOFF_HOUR) = true ∧ currentData.points = 0)
  · unfold calculateStreakStatus calcCore
    dsimp only
    rw [if_pos hm]
    exact ⟨hprev.1, hprev.2⟩
  · have hpair := calcCore_status_count (decide (currentData.date = clock.today))
      (decide (clock.hour < MORNING_CUTOFF_HOUR)) (decide (EVENING_HOUR ≤ clock.hour))
      currentData store hm
    unfold calculateStreakStatus
    have hP : 0 ≤ (if productiveDaysInWeekOf currentData store < MIN_PRODUCTIVE_DAYS_PER_WEEK
          ∧ 7 ≤ daysWithDataOf currentData store
        then ((StreakStatus.reset, 0) : StreakStatus × Int)
        else specBaseTransition
          (isProductiveDay currentData.points || currentData.hasStreakProtection)
          (prevStreakStatusOf currentData store) (prevStreakCountOf currentData store)
          (lowPointDaysInARowOf currentData store)).2
      ∧ ((if productiveDaysInWeekOf currentData store < MIN_PRODUCTIVE_DAYS_PER_WEEK
          ∧ 7 ≤ daysWithDataOf currentData store
        then ((StreakStatus.reset, 0) : StreakStatus × Int)
        else specBaseTransition
          (isProductiveDay currentData.points || currentData.hasStreakProtection)
          (prevStreakStatusOf currentData store) (prevStreakCountOf currentData store)
          (lowPointDaysInARowOf currentData store)).1 = .reset →
        (if productiveDaysInWeekOf currentData store < MIN_PRODUCTIVE_DAYS_PER_WEEK
          ∧ 7 ≤ daysWithDataOf currentData store
        then ((StreakStatus.reset, 0) : StreakStatus × Int)
        else specBaseTransition
          (isProductiveDay currentData.points || currentData.hasStreakProtection)
          (prevStreakStatusOf currentData store) (prevStreakCountOf currentData store)
          (lowPointDaysInARowOf currentData store)).2 = 0) := by
      split
      · exact ⟨le_refl 0, fun _ => rfl⟩
      · unfold specBaseTransition
        split
        · cases prevStreakStatusOf currentData store with
          | active => exact ⟨by dsimp only; omega, by dsimp only; simp⟩
          | paused => exact ⟨hprev.1, by dsimp only; simp⟩
          | reset => exact ⟨by dsimp only; omega, by dsimp only; simp⟩
        · split
          · exact ⟨hprev.1, by simp⟩
          · split
            · exact ⟨hprev.1, by simp⟩
            · split
              · exact ⟨le_refl 0, fun _ => rfl⟩
              · exact ⟨hprev.1, by simp⟩
    rw [← hpair] at hP
    exact hP

theorem runMachine_inv_aux (inputs : List DayInput) :
    ∀ store : GardenStore, StoreInv store → StoreInv (inputs.foldl syncDay store) := by
  induction inputs with
  | nil => intro store hs; exact hs
  | cons inp rest ih =>
    intro store hs
    rw [List.foldl_cons]
    apply ih
    intro p hp
    unfold syncDay at hp
    rcases List.mem_cons.mp hp with h | h
    · subst h
      have hres := calc_result_inv (mkCurrentData inp) store inp.clock hs
      exact ⟨hres.1, hres.2⟩
    · exact hs _ h

theorem runMachine_inv (inputs : List DayInput) : StoreInv (runMachine inputs) :=
  runMachine_inv_aux inputs [] (by intro p hp; simp at hp)

/-- C2 (amended): every record stored by the streak state machine, run from a
fresh empty-history start, has `streakCount ≥ 0`, and `streakStatus = reset`
implies `streakCount = 0`.  The converse direction of the claim's "iff" fails
beyond the first day (see the counterexample). -/
theorem streak_count_invariant (inputs : List DayInput) (d : Int) (r : GardenDayData)
    (h : findRec (runMachine inputs) d = some r) :
    0 ≤ r.streakCount.getD 0
    ∧ (r.streakStatus.getD .active = .reset → r.streakCount.getD 0 = 0) :=
  runMachine_inv inputs (d, r) (findRec_mem h)

/-- C2: counterexample — after two consecutive low-point days from a fresh
start, the second stored record (not the first-ever day: day 10's record is
also present) has `streakStatus = paused` with `streakCount = 0`, refuting
"streakCount = 0 iff streakStatus = reset, except the first-ever day". -/
theorem streak_zero_paused_reachable :
    ((findRec (runMachine demoInputs) 11).map
        (fun r => (r.streakStatus, r.streakCount))) = some (some .paused, some 0)
    ∧ (findRec (runMachine demoInputs) 10).isSome = true := by decide

theorem streak_count_invariant_witness :
    0 ≤ demoDay10Record.streakCount.getD 0
    ∧ (demoDay10Record.streakStatus.getD .active = .reset →
        demoDay10Record.streakCount.getD 0 = 0) :=
  streak_count_invariant
    [ { date := 10, activities := [demoLowActivity 1], clock := { today := 99, hour := 15 } } ]
    10 demoDay10Record (by decide)

theorem streak_deterministic_for_past_dates_witness :
    (¬ (sampleDay 10 0).date = (Clock.mk 11 9).today)
    ∧ (¬ (sampleDay 10 0).date = (Clock.mk 12 20).today)
    ∧ calculateStreakStatus (sampleDay 10 0) [] (Clock.mk 11 9)
        = calculateStreakStatus (sampleDay 10 0) [] (Clock.mk 12 20) :=
  ⟨by decide, by decide,
    streak_deterministic_for_past_dates (sampleDay 10 0) [] (Clock.mk 11 9) (Clock.mk 12 20)
      (by decide) (by decide)⟩

theorem getActivityById_F2 : getActivityById "F2" = some f2Entry := by rfl

theorem calcDim_f2_zero : calculateDiminishedPoints f2Entry 0 = (12, 1) := by
  simp [calculateDiminishedPoints, f2Entry]

theorem calcDim_f2_one : calculateDiminishedPoints f2Entry 1 = (9, 3/4) := by
  simp only [calculateDiminishedPoints, f2Entry]
  norm_num [jsRound_eq_int_floor]

/-- C3: evaluation at the failing input — on a day with three F2 loggings
(points 12, 9, 6 at factors 1, 0.75, 0.5), the shipped activities DELETE
handler that omits sibling recalculation removes the middle occurrence and
decrements the counter but leaves the third occurrence at 6 points, factor
0.5, even though the gapless reassignment the claim requires gives the
remaining second occurrence `calculateDiminishedPoints` at index 1, namely
9 points at factor 0.75. -/
theorem delete_keeps_stale_factor :
    deleteActivityNoRecalc "b" threeF2Day
      = .ok { activities := [f2Activity "a" 12 1 1, f2Activity "c" 6 3 (1/2)],
              activityCounts := [("F2", 2)] }
    ∧ calculateDiminishedPoints f2Entry 1 = (9, 3/4) := by
  refine ⟨?_, calcDim_f2_one⟩
  simp [deleteActivityNoRecalc, threeF2Day, f2Activity, incCount]

/-- The repository's other DELETE snapshot, which does recalculate siblings,
reassigns the remaining occurrences gaplessly at the same input. -/
theorem delete_recalc_reassigns_gapless :
    deleteActivityRecalc "b" threeF2Day
      = .ok { activities := [f2Activity "a" 12 1 1, f2Activity "c" 9 3 (3/4)],
              activityCounts := [("F2", 2)] } := by
  simp [deleteActivityRecalc, threeF2Day, f2Activity, incCount, getActivityById_F2,
    sortByTimestamp, insertByTimestamp, assignDiminishing, calcDim_f2_zero, calcDim_f2_one]

/-- C8: whenever the catalog entry of the requested id defines a `dailyCap`
and the day's occurrence count for it has already reached that cap,
`recordActivity` fails with `DailyCapReached` carrying the user-facing
reason; the error result carries no new activity and no updated counters, so
nothing is emitted or incremented. -/
theorem daily_cap_rejects (activityId : String) (pred : PredefinedActivity) (cap : Nat)
    (nowMs : Int) (dateData : DayData) (weekly : List (String × Int))
    (hfind : getActivityById activityId = some pred)
    (hcap : pred.dailyCap = some cap)
    (hcount : (cap : Int) ≤ countOf dateData.activityCounts pred.id) :
    recordActivity activityId nowMs dateData weekly
      = .error (.dailyCapReached (dailyCapReason cap)) := by
  unfold recordActivity hasReachedCap
  rw [hfind]
  dsimp only
  rw [hcap]
  dsimp only
  rw [if_pos hcount]

theorem daily_cap_rejects_witness :
    recordActivity "F1" 0 { activities := [], activityCounts := [] } []
      = .ok (f1Logged, { activities := [f1Logged], activityCounts := [("F1", 1)] }, [])
    ∧ recordActivity "F1" 5 { activities := [f1Logged], activityCounts := [("F1", 1)] } []
      = .error (.dailyCapReached (dailyCapReason 1)) :=
  ⟨by decide,
    daily_cap_rejects "F1"
      { id := "F1", category := "Fitness 🏋️", name := "Hypertrophie-Workout ≥ 60 min (RIR ≤ 2)",
        level := "Hard", points := 30, isDiminishing := true, dailyCap := some 1,
        comment := "Maximal 1× pro Tag für gesunde Erholung" } 1 5
      { activities := [f1Logged], activityCounts := [("F1", 1)] } []
      (by decide) rfl (by decide)⟩
